import Mathlib

/-!
# Schema distribution client (sql/ndb_schema_dist.cc)

A shallow embedding of `Ndb_schema_dist_client` and of the functions around it.

Conventions of the embedding.

* The release build is embedded: `DBUG_ASSERT`, `DBUG_PRINT`, `DBUG_TRACE` and
  `DBUG_EVALUATE_IF` are compiled out.  The one block under `#ifndef DBUG_OFF`, the
  `NDB_TEST_ANYVALUE_USERDATA` switch of `calculate_anyvalue`, is kept behind the boolean
  `Env.test_anyvalue_userdata`, which is false in a release build.
* A C string (`const char*`, `std::string`) is a `String` whose characters are the
  `char`s of the C string, so `String.length` is `strlen` / `std::string::length`.
* `uint32` values are natural numbers; arithmetic that can wrap is written with an explicit
  `% 4294967296`.  `int` values are integers; the conversions between the two are
  `to_uint32` and `to_int`.
* Everything the file calls but does not define (the `THD` accessors, `Thd_ndb`,
  `NDB_SHARE`, `Ndb_schema_dist_table`, `Ndb_schema_result_table`, the anyvalue helpers,
  `ndb_name_is_temp`, `log_schema_op_impl`) is a field of `Env` or `THD`: the answers of
  these collaborators are inputs, fixed for the duration of one call of an entry point.
* What the client mutates (its members, the warnings it pushes, the records it hands to
  `log_schema_op_impl`, the process-wide `schema_dist_id_sequence`) is the explicit `State`.
  The warnings recorded are those pushed by the code of this file; what a collaborator may
  push inside its own call is not recorded.
  `ndbcluster::ndbrequire` ends the process: a call either returns or aborts (`Outcome`).
-/

namespace NdbSchemaDist

/-! ## Machine integers -/

/-- Conversion of an `int` to `uint32` (an `int` argument passed for a `uint32` parameter). -/
def to_uint32 (i : Int) : Nat := (i % 4294967296).toNat

/-- Conversion of an unsigned value to `int`: the low 32 bits read as two's complement
(`int id = unique_id()`, `static_cast<int>(query_length)`). -/
def to_int (n : Nat) : Int :=
  if n % 4294967296 < 2147483648 then ((n % 4294967296 : Nat) : Int)
  else ((n % 4294967296 : Nat) : Int) - 4294967296

/-! ## Data model -/

/-- The enumeration `SCHEMA_OP_TYPE`, with the enumerators the file names. -/
inductive SCHEMA_OP_TYPE where
  | SOT_DROP_TABLE
  | SOT_CREATE_TABLE
  | SOT_ALTER_TABLE_COMMIT
  | SOT_DROP_DB
  | SOT_CREATE_DB
  | SOT_ALTER_DB
  | SOT_CLEAR_SLOCK
  | SOT_TABLESPACE
  | SOT_LOGFILE_GROUP
  | SOT_RENAME_TABLE
  | SOT_TRUNCATE_TABLE
  | SOT_RENAME_TABLE_PREPARE
  | SOT_ONLINE_ALTER_TABLE_PREPARE
  | SOT_ONLINE_ALTER_TABLE_COMMIT
  | SOT_CREATE_USER
  | SOT_DROP_USER
  | SOT_RENAME_USER
  | SOT_GRANT
  | SOT_REVOKE
  | SOT_CREATE_TABLESPACE
  | SOT_ALTER_TABLESPACE
  | SOT_DROP_TABLESPACE
  | SOT_CREATE_LOGFILE_GROUP
  | SOT_ALTER_LOGFILE_GROUP
  | SOT_DROP_LOGFILE_GROUP
  deriving DecidableEq, Repr

open SCHEMA_OP_TYPE

/-- The arguments of one call of the write primitive `log_schema_op_impl`
(the `Ndb*` handle apart): the record that leaves the client. -/
structure Schema_op where
  query : String
  query_length : Int
  db : String
  table_name : String
  id : Nat
  version : Nat
  type : SCHEMA_OP_TYPE
  anyvalue : Nat
  deriving DecidableEq, Repr

/-- What the file reads of an `NDB_SHARE`. -/
structure NDB_SHARE where
  have_event_operation : Bool
  deriving DecidableEq, Repr

/-- The two columns of `mysql.ndb_schema` whose width limits identifiers:
`Ndb_schema_dist_table::COL_DB` and `Ndb_schema_dist_table::COL_NAME`. -/
inductive Column where
  | COL_DB
  | COL_NAME
  deriving DecidableEq, Repr

/-- The collaborators of the client that are declared outside this file. -/
structure Env where
  /-- Stands for `Ndb_schema_dist_table::DB_NAME`, a `std::string`: `db == DB_NAME`
  compares the characters -/
  DB_NAME : String
  /-- Stands for `Ndb_schema_dist_table::TABLE_NAME` -/
  TABLE_NAME : String
  /-- Stands for `Ndb_schema_result_table::DB_NAME` -/
  RESULT_DB_NAME : String
  /-- Stands for `Ndb_schema_result_table::TABLE_NAME` -/
  RESULT_TABLE_NAME : String
  /-- Stands for `ndb_name_is_temp` of sql/ndb_name_util.h -/
  ndb_name_is_temp : String → Bool
  /-- Stands for `ndbcluster_anyvalue_set_normal` of sql/ndb_anyvalue.h, as a function of the value -/
  anyvalue_set_normal : Nat → Nat
  /-- Stands for `ndbcluster_anyvalue_set_nologging` of sql/ndb_anyvalue.h -/
  anyvalue_set_nologging : Nat → Nat
  /-- Stands for `dbug_ndbcluster_anyvalue_set_userbits` of sql/ndb_anyvalue.h -/
  anyvalue_set_userbits : Nat → Nat
  /-- Stands for `ndbcluster_anyvalue_is_nologging` of sql/ndb_anyvalue.h (not called by this file:
  the reader of the encoding that `anyvalue_set_nologging` writes) -/
  anyvalue_is_nologging : Nat → Bool
  /-- Stands for `NDB_SHARE::acquire_reference_by_key(NDB_SCHEMA_TABLE_KEY, ...)`: `none` is `nullptr` -/
  schema_share : Option NDB_SHARE
  /-- Stands for `Ndb_schema_dist_table::open` -/
  schema_dist_table_open : Bool
  /-- Stands for `Ndb_schema_dist_table::check_schema` -/
  schema_dist_table_check_schema : Bool
  /-- Stands for `Ndb_schema_dist_table::check_column_identifier_limit` -/
  check_column_identifier_limit : Column → String → Bool
  /-- Stands for `Ndb_schema_result_table::open` -/
  schema_result_table_open : Bool
  /-- Stands for `Ndb_schema_result_table::check_schema` -/
  schema_result_table_check_schema : Bool
  /-- The result code of the write primitive `log_schema_op_impl`: 0 is success -/
  log_schema_op_impl : Schema_op → Int
  /-- Debug build with the environment variable `NDB_TEST_ANYVALUE_USERDATA` set to a
  value that does not start with `0`, `n` or `N` -/
  test_anyvalue_userdata : Bool

/-- What the file reads of the session: `THD` and its `Thd_ndb`. -/
structure THD where
  /-- Stands for `thd_slave_thread(m_thd)` -/
  slave_thread : Bool
  /-- Stands for `thd_test_options(m_thd, OPTION_BIN_LOG)` -/
  option_bin_log : Bool
  /-- Stands for `thd_unmasked_server_id(m_thd)` -/
  unmasked_server_id : Nat
  /-- Stands for `ndb_thd_query(m_thd)` -/
  query : String
  /-- Stands for `ndb_thd_query_length(m_thd)` -/
  query_length : Nat
  /-- Stands for `m_thd_ndb->check_option(Thd_ndb::NO_LOG_SCHEMA_OP)` -/
  no_log_schema_op : Bool
  /-- Stands for `m_thd_ndb->connection->node_id()` -/
  node_id : Nat
  deriving DecidableEq, Repr

/-- The mutable state: the members of the client, the warnings it has pushed with
`Thd_ndb::push_warning`, the records it has handed to `log_schema_op_impl` (oldest first),
and the process-wide counter `schema_dist_id_sequence`. -/
structure State where
  m_share : Option NDB_SHARE
  m_prepared_keys : List (String × String)
  warnings : List String
  written : List Schema_op
  schema_dist_id_sequence : Nat
  deriving DecidableEq, Repr

/-- A call either returns its `bool`, or the process is ended by `ndbcluster::ndbrequire`. -/
inductive Outcome where
  | returned (result : Bool) (st : State)
  | aborted (st : State)
  deriving DecidableEq, Repr

/-- The state a call leaves behind. -/
def Outcome.st : Outcome → State
  | .returned _ st => st
  | .aborted st => st

/-- Embeds `m_thd_ndb->push_warning(msg)`. -/
def push_warning (s : State) (msg : String) : State :=
  { s with warnings := s.warnings ++ [msg] }

/-- A client just constructed (`Ndb_schema_dist_client(THD*)`): no share, no prepared key.
The counter is process-wide and keeps its value. -/
def State.init (sequence : Nat) : State :=
  { m_share := none, m_prepared_keys := [], warnings := [], written := [],
    schema_dist_id_sequence := sequence }

/-! ## Readiness and preparation -/

/-- Embeds `Ndb_schema_dist::is_ready`. -/
def is_ready (env : Env) : Bool :=
  match env.schema_share with
  | none => false
  | some schema_share => if !schema_share.have_event_operation then false else true

/-- Embeds `Ndb_schema_dist_client::is_schema_dist_table`. -/
def is_schema_dist_table (env : Env) (db table_name : String) : Bool :=
  if db == env.DB_NAME && table_name == env.TABLE_NAME then true else false

/-- Embeds `Ndb_schema_dist_client::is_schema_dist_result_table`. -/
def is_schema_dist_result_table (env : Env) (db table_name : String) : Bool :=
  if db == env.RESULT_DB_NAME && table_name == env.RESULT_TABLE_NAME then true else false

/-- Embeds `Prepared_keys::add_key`. -/
def add_key (keys : List (String × String)) (db tabname : String) : List (String × String) :=
  keys ++ [(db, tabname)]

/-- Embeds `Prepared_keys::check_key`. -/
def check_key : List (String × String) → String → String → Bool
  | [], _, _ => false
  | key :: rest, db, tabname =>
    if key.1 == db && key.2 == tabname then true else check_key rest db tabname

/-- The share test of `prepare`: `m_share == nullptr || !m_share->have_event_operation()`. -/
def share_not_ready : Option NDB_SHARE → Bool
  | none => true
  | some share => share.have_event_operation == false

/-- Embeds `Ndb_schema_dist_client::prepare`. -/
def prepare (env : Env) (s : State) (db tabname : String) : Bool × State :=
  let s := { s with m_share := env.schema_share }
  if share_not_ready s.m_share then
    (false, push_warning s "Schema distribution is not ready")
  else
    let s := { s with m_prepared_keys := add_key s.m_prepared_keys db tabname }
    if !env.schema_dist_table_open then (false, s)
    else if !env.schema_dist_table_check_schema then (false, s)
    else if !env.schema_result_table_open then (false, s)
    else if !env.schema_result_table_check_schema then (false, s)
    else (true, s)

/-- Embeds `Ndb_schema_dist_client::prepare_rename`. -/
def prepare_rename (env : Env) (s : State) (db tabname new_db new_tabname : String) :
    Bool × State :=
  let r := prepare env s db tabname
  if !r.1 then (false, r.2)
  else (true, { r.2 with m_prepared_keys := add_key r.2.m_prepared_keys new_db new_tabname })

/-- The loop of `check_identifier_limits` over the prepared keys: `none` when every key
passes, `some identifier` for the identifier it stops at. -/
def check_keys_limits (env : Env) : List (String × String) → Option String
  | [] => none
  | key :: rest =>
    if !env.check_column_identifier_limit Column.COL_DB key.1 then some key.1
    else if !env.check_column_identifier_limit Column.COL_NAME key.2 then some key.2
    else check_keys_limits env rest

/-- Embeds `Ndb_schema_dist_client::check_identifier_limits`: `none` stands for `true`, and
`some identifier` for `false` with `invalid_identifier` set to `identifier`. -/
def check_identifier_limits (env : Env) (s : State) : Option String :=
  if !env.schema_dist_table_open then some "<open failed>"
  else check_keys_limits env s.m_prepared_keys

/-! ## Identifier allocator -/

/-- The pre-increment `++schema_dist_id_sequence` on the 32-bit counter. -/
def increment_sequence (s : State) : State :=
  { s with schema_dist_id_sequence := (s.schema_dist_id_sequence + 1) % 4294967296 }

/-- Embeds `Ndb_schema_dist_client::unique_id`: the value returned and the state left. -/
def unique_id (s : State) : Nat × State :=
  let s1 := increment_sequence s
  let id := s1.schema_dist_id_sequence
  if id == 0 then
    let s2 := increment_sequence s1
    (s2.schema_dist_id_sequence, s2)
  else (id, s1)

/-- Embeds `Ndb_schema_dist_client::unique_version`. -/
def unique_version (thd : THD) : Nat := thd.node_id

/-! ## AnyValue -/

/-- Embeds `Ndb_schema_dist_client::calculate_anyvalue`. -/
def calculate_anyvalue (env : Env) (thd : THD) (force_nologging : Bool) : Nat :=
  let anyValue : Nat := 0
  let anyValue :=
    if !thd.slave_thread then
      let anyValue :=
        if thd.option_bin_log then env.anyvalue_set_normal anyValue
        else env.anyvalue_set_nologging anyValue
      if !force_nologging then env.anyvalue_set_nologging anyValue else anyValue
    else thd.unmasked_server_id
  if env.test_anyvalue_userdata then env.anyvalue_set_userbits anyValue else anyValue

/-! ## The dispatcher -/

/-- Embeds `Ndb_schema_dist_client::log_schema_op`. -/
def log_schema_op (env : Env) (thd : THD) (s : State) (query : String) (query_length : Nat)
    (db table_name : String) (id version : Nat) (type : SCHEMA_OP_TYPE)
    (log_query_on_participant : Bool) : Outcome :=
  if env.ndb_name_is_temp db || env.ndb_name_is_temp table_name then
    .returned false s
  else
    match s.m_share with
    | none => .aborted s
    | some _ =>
      if !check_key s.m_prepared_keys db table_name then
        .returned false (push_warning s "INTERNAL ERROR: prepared keys didn't match")
      else if thd.no_log_schema_op then
        .returned true s
      else
        match check_identifier_limits env s with
        | some _ =>
          .returned false (push_warning s "INTERNAL ERROR: identifier limits exceeded")
        | none =>
          let anyvalue := calculate_anyvalue env thd log_query_on_participant
          let op : Schema_op :=
            { query := query, query_length := to_int query_length, db := db,
              table_name := table_name, id := id, version := version, type := type,
              anyvalue := anyvalue }
          let s := { s with written := s.written ++ [op] }
          if env.log_schema_op_impl op != 0 then
            .returned false (push_warning s "Schema distribution failed!")
          else .returned true s

/-! ## The operation catalog

The entry points that leave out the last argument of `log_schema_op` use its default.
`id` and `version` are `int` in most entry points and are converted to the `uint32`
parameters of `log_schema_op` at the call. -/

/-- Modelled from the spec: the declaration of `log_schema_op` (sql/ndb_schema_dist.h) is
not among the sources; the spec gives its last parameter, the flag for whether participants
should log the operation, the default true. -/
def log_query_on_participant_default : Bool := true

/-- Embeds `Ndb_schema_dist_client::create_table`. -/
def create_table (env : Env) (thd : THD) (s : State) (db table_name : String)
    (id version : Int) : Outcome :=
  if is_schema_dist_table env db table_name then
    .returned true s
  else
    log_schema_op env thd s thd.query thd.query_length db table_name
      (to_uint32 id) (to_uint32 version) SOT_CREATE_TABLE log_query_on_participant_default

/-- Embeds `Ndb_schema_dist_client::truncate_table`. -/
def truncate_table (env : Env) (thd : THD) (s : State) (db table_name : String)
    (id version : Int) : Outcome :=
  log_schema_op env thd s thd.query thd.query_length db table_name
    (to_uint32 id) (to_uint32 version) SOT_TRUNCATE_TABLE log_query_on_participant_default

/-- Embeds `Ndb_schema_dist_client::alter_table`. -/
def alter_table (env : Env) (thd : THD) (s : State) (db table_name : String)
    (id version : Int) (log_on_participant : Bool) : Outcome :=
  log_schema_op env thd s thd.query thd.query_length db table_name
    (to_uint32 id) (to_uint32 version) SOT_ALTER_TABLE_COMMIT log_on_participant

/-- Embeds `Ndb_schema_dist_client::alter_table_inplace_prepare`. -/
def alter_table_inplace_prepare (env : Env) (thd : THD) (s : State) (db table_name : String)
    (id version : Int) : Outcome :=
  log_schema_op env thd s thd.query thd.query_length db table_name
    (to_uint32 id) (to_uint32 version) SOT_ONLINE_ALTER_TABLE_PREPARE
    log_query_on_participant_default

/-- Embeds `Ndb_schema_dist_client::alter_table_inplace_commit`. -/
def alter_table_inplace_commit (env : Env) (thd : THD) (s : State) (db table_name : String)
    (id version : Int) : Outcome :=
  log_schema_op env thd s thd.query thd.query_length db table_name
    (to_uint32 id) (to_uint32 version) SOT_ONLINE_ALTER_TABLE_COMMIT
    log_query_on_participant_default

/-- Embeds `Ndb_schema_dist_client::rename_table_prepare`. -/
def rename_table_prepare (env : Env) (thd : THD) (s : State) (db table_name : String)
    (id version : Int) (new_key_for_table : String) : Outcome :=
  log_schema_op env thd s new_key_for_table new_key_for_table.length db table_name
    (to_uint32 id) (to_uint32 version) SOT_RENAME_TABLE_PREPARE
    log_query_on_participant_default

/-- The query text that `rename_table` builds in `rewritten_query`. -/
def rename_table_query (db table_name new_dbname new_tabname : String) : String :=
  "rename table `" ++ db ++ "`.`" ++ table_name ++ "` to `" ++ new_dbname ++ "`.`"
    ++ new_tabname ++ "`"

/-- Embeds `Ndb_schema_dist_client::rename_table`. -/
def rename_table (env : Env) (thd : THD) (s : State) (db table_name : String)
    (id version : Int) (new_dbname new_tabname : String) (log_on_participant : Bool) :
    Outcome :=
  let rewritten_query := rename_table_query db table_name new_dbname new_tabname
  log_schema_op env thd s rewritten_query rewritten_query.length db table_name
    (to_uint32 id) (to_uint32 version) SOT_RENAME_TABLE log_on_participant

/-- The query text that `drop_table` builds in `rewritten_query`. -/
def drop_table_query (db table_name : String) : String :=
  "drop table `" ++ db ++ "`.`" ++ table_name ++ "`"

/-- Embeds `Ndb_schema_dist_client::drop_table`.  The parameters `id` and `version` are
`int` variables: the fresh values are stored in them and converted back at the call. -/
def drop_table (env : Env) (thd : THD) (s : State) (db table_name : String)
    (id version : Int) (log_on_participant : Bool) : Outcome :=
  let rewritten_query := drop_table_query db table_name
  if id == 0 && version == 0 then
    let r := unique_id s
    let id := to_int r.1
    let version := to_int (unique_version thd)
    log_schema_op env thd r.2 rewritten_query rewritten_query.length db table_name
      (to_uint32 id) (to_uint32 version) SOT_DROP_TABLE log_on_participant
  else
    log_schema_op env thd s rewritten_query rewritten_query.length db table_name
      (to_uint32 id) (to_uint32 version) SOT_DROP_TABLE log_on_participant

/-- The warning of the database entry points: `"Identifier name '%-.100s' is too long"`
with the identifier, of which the conversion prints at most 100 characters. -/
def identifier_too_long (invalid_identifier : String) : String :=
  "Identifier name '" ++ String.mk (invalid_identifier.toList.take 100) ++ "' is too long"

/-- Embeds `Ndb_schema_dist_client::create_db`. -/
def create_db (env : Env) (thd : THD) (s : State) (query : String) (query_length : Nat)
    (db : String) (id version : Nat) : Outcome :=
  match check_identifier_limits env s with
  | some invalid_identifier =>
    .returned false (push_warning s (identifier_too_long invalid_identifier))
  | none =>
    log_schema_op env thd s query query_length db "" id version SOT_CREATE_DB
      log_query_on_participant_default

/-- Embeds `Ndb_schema_dist_client::alter_db`. -/
def alter_db (env : Env) (thd : THD) (s : State) (query : String) (query_length : Nat)
    (db : String) (id version : Nat) : Outcome :=
  match check_identifier_limits env s with
  | some invalid_identifier =>
    .returned false (push_warning s (identifier_too_long invalid_identifier))
  | none =>
    log_schema_op env thd s query query_length db "" id version SOT_ALTER_DB
      log_query_on_participant_default

/-- Embeds `Ndb_schema_dist_client::drop_db`. -/
def drop_db (env : Env) (thd : THD) (s : State) (db : String) : Outcome :=
  match check_identifier_limits env s with
  | some invalid_identifier =>
    .returned false (push_warning s (identifier_too_long invalid_identifier))
  | none =>
    let r := unique_id s
    log_schema_op env thd r.2 thd.query thd.query_length db "" r.1 (unique_version thd)
      SOT_DROP_DB log_query_on_participant_default

/-- Embeds `Ndb_schema_dist_client::acl_notify`. -/
def acl_notify (env : Env) (thd : THD) (s : State) (query : String) (query_length : Nat)
    (db : String) : Outcome :=
  let r := unique_id s
  log_schema_op env thd r.2 query query_length db "" r.1 (unique_version thd) SOT_GRANT
    log_query_on_participant_default

/-- Embeds `Ndb_schema_dist_client::tablespace_changed`. -/
def tablespace_changed (env : Env) (thd : THD) (s : State) (tablespace_name : String)
    (id version : Int) : Outcome :=
  log_schema_op env thd s thd.query thd.query_length "" tablespace_name
    (to_uint32 id) (to_uint32 version) SOT_TABLESPACE log_query_on_participant_default

/-- Embeds `Ndb_schema_dist_client::logfilegroup_changed`. -/
def logfilegroup_changed (env : Env) (thd : THD) (s : State) (logfilegroup_name : String)
    (id version : Int) : Outcome :=
  log_schema_op env thd s thd.query thd.query_length "" logfilegroup_name
    (to_uint32 id) (to_uint32 version) SOT_LOGFILE_GROUP log_query_on_participant_default

/-- Embeds `Ndb_schema_dist_client::create_tablespace`. -/
def create_tablespace (env : Env) (thd : THD) (s : State) (tablespace_name : String)
    (id version : Int) : Outcome :=
  log_schema_op env thd s thd.query thd.query_length "" tablespace_name
    (to_uint32 id) (to_uint32 version) SOT_CREATE_TABLESPACE log_query_on_participant_default

/-- Embeds `Ndb_schema_dist_client::alter_tablespace`. -/
def alter_tablespace (env : Env) (thd : THD) (s : State) (tablespace_name : String)
    (id version : Int) : Outcome :=
  log_schema_op env thd s thd.query thd.query_length "" tablespace_name
    (to_uint32 id) (to_uint32 version) SOT_ALTER_TABLESPACE log_query_on_participant_default

/-- Embeds `Ndb_schema_dist_client::drop_tablespace`. -/
def drop_tablespace (env : Env) (thd : THD) (s : State) (tablespace_name : String)
    (id version : Int) : Outcome :=
  log_schema_op env thd s thd.query thd.query_length "" tablespace_name
    (to_uint32 id) (to_uint32 version) SOT_DROP_TABLESPACE log_query_on_participant_default

/-- Embeds `Ndb_schema_dist_client::create_logfile_group`. -/
def create_logfile_group (env : Env) (thd : THD) (s : State) (logfile_group_name : String)
    (id version : Int) : Outcome :=
  log_schema_op env thd s thd.query thd.query_length "" logfile_group_name
    (to_uint32 id) (to_uint32 version) SOT_CREATE_LOGFILE_GROUP
    log_query_on_participant_default

/-- Embeds `Ndb_schema_dist_client::alter_logfile_group`. -/
def alter_logfile_group (env : Env) (thd : THD) (s : State) (logfile_group_name : String)
    (id version : Int) : Outcome :=
  log_schema_op env thd s thd.query thd.query_length "" logfile_group_name
    (to_uint32 id) (to_uint32 version) SOT_ALTER_LOGFILE_GROUP
    log_query_on_participant_default

/-- Embeds `Ndb_schema_dist_client::drop_logfile_group`. -/
def drop_logfile_group (env : Env) (thd : THD) (s : State) (logfile_group_name : String)
    (id version : Int) : Outcome :=
  log_schema_op env thd s thd.query thd.query_length "" logfile_group_name
    (to_uint32 id) (to_uint32 version) SOT_DROP_LOGFILE_GROUP
    log_query_on_participant_default

/-- Embeds `Ndb_schema_dist_client::type_name`.  Every value of the embedded enumeration
has its case, so the `default` branch and the `"<unknown>"` it leads to are not reached. -/
def type_name : SCHEMA_OP_TYPE → String
  | SOT_DROP_TABLE => "DROP_TABLE"
  | SOT_CREATE_TABLE => "CREATE_TABLE"
  | SOT_ALTER_TABLE_COMMIT => "ALTER_TABLE_COMMIT"
  | SOT_DROP_DB => "DROP_DB"
  | SOT_CREATE_DB => "CREATE_DB"
  | SOT_ALTER_DB => "ALTER_DB"
  | SOT_CLEAR_SLOCK => "CLEAR_SLOCK"
  | SOT_TABLESPACE => "TABLESPACE"
  | SOT_LOGFILE_GROUP => "LOGFILE_GROUP"
  | SOT_RENAME_TABLE => "RENAME_TABLE"
  | SOT_TRUNCATE_TABLE => "TRUNCATE_TABLE"
  | SOT_RENAME_TABLE_PREPARE => "RENAME_TABLE_PREPARE"
  | SOT_ONLINE_ALTER_TABLE_PREPARE => "ONLINE_ALTER_TABLE_PREPARE"
  | SOT_ONLINE_ALTER_TABLE_COMMIT => "ONLINE_ALTER_TABLE_COMMIT"
  | SOT_CREATE_USER => "CREATE_USER"
  | SOT_DROP_USER => "DROP_USER"
  | SOT_RENAME_USER => "RENAME_USER"
  | SOT_GRANT => "GRANT"
  | SOT_REVOKE => "REVOKE"
  | SOT_CREATE_TABLESPACE => "CREATE_TABLESPACE"
  | SOT_ALTER_TABLESPACE => "ALTER_TABLESPACE"
  | SOT_DROP_TABLESPACE => "DROP_TABLESPACE"
  | SOT_CREATE_LOGFILE_GROUP => "CREATE_LOGFILE_GROUP"
  | SOT_ALTER_LOGFILE_GROUP => "ALTER_LOGFILE_GROUP"
  | SOT_DROP_LOGFILE_GROUP => "DROP_LOGFILE_GROUP"

/-- One call of an operation of the client, with its arguments. -/
inductive Call where
  | log_schema_op (query : String) (query_length : Nat) (db table_name : String)
      (id version : Nat) (type : SCHEMA_OP_TYPE) (log_query_on_participant : Bool)
  | create_table (db table_name : String) (id version : Int)
  | truncate_table (db table_name : String) (id version : Int)
  | alter_table (db table_name : String) (id version : Int) (log_on_participant : Bool)
  | alter_table_inplace_prepare (db table_name : String) (id version : Int)
  | alter_table_inplace_commit (db table_name : String) (id version : Int)
  | rename_table_prepare (db table_name : String) (id version : Int)
      (new_key_for_table : String)
  | rename_table (db table_name : String) (id version : Int)
      (new_dbname new_tabname : String) (log_on_participant : Bool)
  | drop_table (db table_name : String) (id version : Int) (log_on_participant : Bool)
  | create_db (query : String) (query_length : Nat) (db : String) (id version : Nat)
  | alter_db (query : String) (query_length : Nat) (db : String) (id version : Nat)
  | drop_db (db : String)
  | acl_notify (query : String) (query_length : Nat) (db : String)
  | tablespace_changed (tablespace_name : String) (id version : Int)
  | logfilegroup_changed (logfilegroup_name : String) (id version : Int)
  | create_tablespace (tablespace_name : String) (id version : Int)
  | alter_tablespace (tablespace_name : String) (id version : Int)
  | drop_tablespace (tablespace_name : String) (id version : Int)
  | create_logfile_group (logfile_group_name : String) (id version : Int)
  | alter_logfile_group (logfile_group_name : String) (id version : Int)
  | drop_logfile_group (logfile_group_name : String) (id version : Int)

/-- The call carried out on a state. -/
def Call.run (env : Env) (thd : THD) (s : State) : Call → Outcome
  | .log_schema_op query query_length db table_name id version type lop =>
    NdbSchemaDist.log_schema_op env thd s query query_length db table_name id version type lop
  | .create_table db table_name id version =>
    NdbSchemaDist.create_table env thd s db table_name id version
  | .truncate_table db table_name id version =>
    NdbSchemaDist.truncate_table env thd s db table_name id version
  | .alter_table db table_name id version lop =>
    NdbSchemaDist.alter_table env thd s db table_name id version lop
  | .alter_table_inplace_prepare db table_name id version =>
    NdbSchemaDist.alter_table_inplace_prepare env thd s db table_name id version
  | .alter_table_inplace_commit db table_name id version =>
    NdbSchemaDist.alter_table_inplace_commit env thd s db table_name id version
  | .rename_table_prepare db table_name id version new_key =>
    NdbSchemaDist.rename_table_prepare env thd s db table_name id version new_key
  | .rename_table db table_name id version new_dbname new_tabname lop =>
    NdbSchemaDist.rename_table env thd s db table_name id version new_dbname new_tabname lop
  | .drop_table db table_name id version lop =>
    NdbSchemaDist.drop_table env thd s db table_name id version lop
  | .create_db query query_length db id version =>
    NdbSchemaDist.create_db env thd s query query_length db id version
  | .alter_db query query_length db id version =>
    NdbSchemaDist.alter_db env thd s query query_length db id version
  | .drop_db db => NdbSchemaDist.drop_db env thd s db
  | .acl_notify query query_length db =>
    NdbSchemaDist.acl_notify env thd s query query_length db
  | .tablespace_changed name id version =>
    NdbSchemaDist.tablespace_changed env thd s name id version
  | .logfilegroup_changed name id version =>
    NdbSchemaDist.logfilegroup_changed env thd s name id version
  | .create_tablespace name id version =>
    NdbSchemaDist.create_tablespace env thd s name id version
  | .alter_tablespace name id version =>
    NdbSchemaDist.alter_tablespace env thd s name id version
  | .drop_tablespace name id version =>
    NdbSchemaDist.drop_tablespace env thd s name id version
  | .create_logfile_group name id version =>
    NdbSchemaDist.create_logfile_group env thd s name id version
  | .alter_logfile_group name id version =>
    NdbSchemaDist.alter_logfile_group env thd s name id version
  | .drop_logfile_group name id version =>
    NdbSchemaDist.drop_logfile_group env thd s name id version

/-- The values of the type `int`. -/
def int_range (i : Int) : Prop := -2147483648 ≤ i ∧ i < 2147483648

/-- The caller of an entry point with `int id, int version` supplies two non-zero values. -/
def supplied_nonzero (id version : Int) : Prop :=
  int_range id ∧ int_range version ∧ id ≠ 0 ∧ version ≠ 0

/-- The caller supplies non-zero `id` and `version` wherever the operation takes them from
the caller; `drop_table` may also be given zero for both, its documented special case. -/
def Call.ids_nonzero : Call → Prop
  | .log_schema_op _ _ _ _ id version _ _ => id ≠ 0 ∧ version ≠ 0
  | .create_table _ _ id version => supplied_nonzero id version
  | .truncate_table _ _ id version => supplied_nonzero id version
  | .alter_table _ _ id version _ => supplied_nonzero id version
  | .alter_table_inplace_prepare _ _ id version => supplied_nonzero id version
  | .alter_table_inplace_commit _ _ id version => supplied_nonzero id version
  | .rename_table_prepare _ _ id version _ => supplied_nonzero id version
  | .rename_table _ _ id version _ _ _ => supplied_nonzero id version
  | .drop_table _ _ id version _ => supplied_nonzero id version ∨ (id = 0 ∧ version = 0)
  | .create_db _ _ _ id version => id ≠ 0 ∧ version ≠ 0
  | .alter_db _ _ _ id version => id ≠ 0 ∧ version ≠ 0
  | .drop_db _ => True
  | .acl_notify _ _ _ => True
  | .tablespace_changed _ id version => supplied_nonzero id version
  | .logfilegroup_changed _ id version => supplied_nonzero id version
  | .create_tablespace _ id version => supplied_nonzero id version
  | .alter_tablespace _ id version => supplied_nonzero id version
  | .drop_tablespace _ id version => supplied_nonzero id version
  | .create_logfile_group _ id version => supplied_nonzero id version
  | .alter_logfile_group _ id version => supplied_nonzero id version
  | .drop_logfile_group _ id version => supplied_nonzero id version

/-- The values returned by `n` consecutive calls of `unique_id`, first call first. -/
def unique_ids : Nat → State → List Nat
  | 0, _ => []
  | n + 1, s => (unique_id s).1 :: unique_ids n (unique_id s).2

/-! ## A concrete environment

The collaborators as they are in the server, for the examples: -/

/-- Modelled from the spec: `ndb_name_is_temp` (sql/ndb_name_util.h) is not among the
sources; the reserved naming convention for transient objects is the prefix `#sql`. -/
def ndb_name_is_temp (name : String) : Bool := "#sql".toList.isPrefixOf name.toList

/-- Modelled from the spec: `ndbcluster_anyvalue_set_nologging` (sql/ndb_anyvalue.h) is not
among the sources; the no-logging encoding is the reserved bit together with the low seven
bits, `0x8000007f`. -/
def ndbcluster_anyvalue_set_nologging (anyValue : Nat) : Nat := anyValue ||| 0x8000007f

/-- Modelled from the spec: `ndbcluster_anyvalue_is_nologging` (sql/ndb_anyvalue.h) is not
among the sources; a value carries the no-logging encoding when its reserved bit and low
seven bits are all set. -/
def ndbcluster_anyvalue_is_nologging (anyValue : Nat) : Bool :=
  (anyValue &&& 0x8000007f) == 0x8000007f

/-- Modelled from the spec: `ndbcluster_anyvalue_set_normal` (sql/ndb_anyvalue.h) is not
among the sources; the normal-logging encoding has the reserved bit `0x80000000` and the
server id bits (those of `opt_server_id_mask`) cleared. -/
def ndbcluster_anyvalue_set_normal (opt_server_id_mask anyValue : Nat) : Nat :=
  (anyValue &&& (0xffffffff ^^^ 0x80000000)) &&& (0xffffffff ^^^ opt_server_id_mask)

/-- Modelled from the spec: `dbug_ndbcluster_anyvalue_set_userbits` (sql/ndb_anyvalue.h) is
not among the sources; it sets the bits that are neither the reserved bit nor server id
bits. -/
def dbug_ndbcluster_anyvalue_set_userbits (opt_server_id_mask anyValue : Nat) : Nat :=
  anyValue ||| (0xffffffff ^^^ (opt_server_id_mask ||| 0x80000000))

/-- Modelled from the spec: the collaborators that are not among the sources, for the
examples.  The mailbox table is `mysql.ndb_schema` and its result table
`mysql.ndb_schema_result`, both open and of the expected layout; the share exists with its
event operation; identifiers of at most 63 characters fit both columns; the server id
mask is that of seven server id bits; the write primitive succeeds; release build. -/
def example_env : Env :=
  { DB_NAME := "mysql", TABLE_NAME := "ndb_schema",
    RESULT_DB_NAME := "mysql", RESULT_TABLE_NAME := "ndb_schema_result",
    ndb_name_is_temp := ndb_name_is_temp,
    anyvalue_set_normal := ndbcluster_anyvalue_set_normal 0x7f,
    anyvalue_set_nologging := ndbcluster_anyvalue_set_nologging,
    anyvalue_set_userbits := dbug_ndbcluster_anyvalue_set_userbits 0x7f,
    anyvalue_is_nologging := ndbcluster_anyvalue_is_nologging,
    schema_share := some { have_event_operation := true },
    schema_dist_table_open := true, schema_dist_table_check_schema := true,
    check_column_identifier_limit := fun _ identifier => decide (identifier.length ≤ 63),
    schema_result_table_open := true, schema_result_table_check_schema := true,
    log_schema_op_impl := fun _ => 0,
    test_anyvalue_userdata := false }

/-- A session for the examples: a local thread with binary logging on, distribution not
suppressed, on node 4. -/
def example_thd : THD :=
  { slave_thread := false, option_bin_log := true, unmasked_server_id := 1,
    query := "create table t1 (a int)", query_length := 23,
    no_log_schema_op := false, node_id := 4 }

/-- The client after `prepare("d", "t1")` in the example environment. -/
def example_prepared : State := (prepare example_env (State.init 0) "d" "t1").2

/-- The record that `log_schema_op` builds from its arguments for `log_schema_op_impl`. -/
def schema_op_of (env : Env) (thd : THD) (query : String) (query_length : Nat)
    (db table_name : String) (id version : Nat) (type : SCHEMA_OP_TYPE)
    (log_query_on_participant : Bool) : Schema_op :=
  { query := query, query_length := to_int query_length, db := db, table_name := table_name,
    id := id, version := version, type := type,
    anyvalue := calculate_anyvalue env thd log_query_on_participant }

/-- A session like `example_thd` that has set `Thd_ndb::NO_LOG_SCHEMA_OP`. -/
def example_thd_no_log : THD := { example_thd with no_log_schema_op := true }

/-- A session like `example_thd` of a replication-apply thread, the replicated event
coming from server id 7. -/
def example_thd_slave : THD :=
  { example_thd with slave_thread := true, unmasked_server_id := 7 }

/-- Modelled from the spec: `Ndb_schema_dist_table::check_column_identifier_limit` is not
among the sources; it validates an identifier against the width limit of a column of the
mailbox table: an identifier exactly at the limit passes, one character over fails.  The
widths of the columns are the parameter `width`. -/
def check_column_identifier_limit (width : Column → Nat) (col : Column)
    (identifier : String) : Bool :=
  decide (identifier.length ≤ width col)

/-- The names of the prepared keys in the order of the claim: keys in registration order,
and of each key the database name (for `COL_DB`) before the table name (for `COL_NAME`). -/
def identifiers_in_order : List (String × String) → List (Column × String)
  | [] => []
  | key :: rest =>
    (Column.COL_DB, key.1) :: (Column.COL_NAME, key.2) :: identifiers_in_order rest

/-- The first name, in that order, that is longer than the width of its column. -/
def first_offending_identifier (width : Column → Nat) (keys : List (String × String)) :
    Option String :=
  ((identifiers_in_order keys).find? (fun p => decide (width p.1 < p.2.length))).map
    Prod.snd

/-- A name of 63 characters, the width of the columns in the example environment. -/
def name_at_limit : String := String.mk (List.replicate 63 'a')

/-- A name of 64 characters, one over the limit, that differs from `name_over_limit_b`. -/
def name_over_limit : String := String.mk (List.replicate 64 'a')

/-- A second name of 64 characters. -/
def name_over_limit_b : String := String.mk (List.replicate 64 'b')

/-- The example environment with a write primitive that fails (result code 1). -/
def example_env_write_fails : Env := { example_env with log_schema_op_impl := fun _ => 1 }

/-- The example environment before the share of the mailbox table exists. -/
def example_env_not_ready : Env := { example_env with schema_share := none }

/-- The example environment with a result table that fails its schema check. -/
def example_env_result_mismatch : Env :=
  { example_env with schema_result_table_check_schema := false }

/-- The example environment at a moment when the mailbox table does not open. -/
def example_env_open_fails : Env := { example_env with schema_dist_table_open := false }

/-- The client after `prepare_rename("d", "t1", "d", name_over_limit)` in the example
environment: the second key has a table name of 64 characters. -/
def example_rename_over_limit : State :=
  (prepare_rename example_env (State.init 0) "d" "t1" "d" name_over_limit).2

/-- The backquote character (code 96). -/
def backquote : Char := Char.ofNat 96

/-- A name has no backquote among its characters. -/
def no_backquote (name : String) : Prop := backquote ∉ name.data

/-! ## Lemmas on the prepared keys and on the dispatcher -/

theorem check_key_iff_mem (keys : List (String × String)) (db tabname : String) :
    check_key keys db tabname = true ↔ (db, tabname) ∈ keys := by
  induction keys with
  | nil => simp [check_key]
  | cons key rest ih =>
    obtain ⟨k1, k2⟩ := key
    by_cases h : k1 = db ∧ k2 = tabname
    · obtain ⟨h1, h2⟩ := h
      subst h1 h2
      simp [check_key]
    · have hne : ¬ ((db, tabname) = (k1, k2)) := by
        intro heq
        exact h ⟨(congrArg Prod.fst heq).symm, (congrArg Prod.snd heq).symm⟩
      have hb : (k1 == db && k2 == tabname) = false := by
        simpa using h
      simp [check_key, hb, ih, hne]

theorem check_key_eq_false_iff (keys : List (String × String)) (db tabname : String) :
    check_key keys db tabname = false ↔ (db, tabname) ∉ keys := by
  rw [← check_key_iff_mem]
  cases check_key keys db tabname <;> simp

/-- A call of `log_schema_op` hands over nothing, or exactly the record of its arguments. -/
theorem log_schema_op_written (env : Env) (thd : THD) (s : State) (query : String)
    (query_length : Nat) (db table_name : String) (id version : Nat) (type : SCHEMA_OP_TYPE)
    (lop : Bool) :
    (log_schema_op env thd s query query_length db table_name id version type lop).st.written
        = s.written ∨
    (log_schema_op env thd s query query_length db table_name id version type lop).st.written
        = s.written ++
          [schema_op_of env thd query query_length db table_name id version type lop] := by
  unfold log_schema_op schema_op_of
  split
  · left; rfl
  · split
    · left; rfl
    · split
      · left; rfl
      · split
        · left; rfl
        · split
          · left; rfl
          · right
            dsimp only
            split <;> rfl

/-- A call of `log_schema_op` that gets past every check hands over the record of its
arguments, and returns what the write primitive reports. -/
theorem log_schema_op_emits (env : Env) (thd : THD) (s : State) (query : String)
    (query_length : Nat) (db table_name : String) (id version : Nat) (type : SCHEMA_OP_TYPE)
    (lop : Bool)
    (hdb : env.ndb_name_is_temp db = false) (htab : env.ndb_name_is_temp table_name = false)
    (hshare : s.m_share.isSome = true)
    (hkey : check_key s.m_prepared_keys db table_name = true)
    (hopt : thd.no_log_schema_op = false)
    (hlimits : check_identifier_limits env s = none) :
    log_schema_op env thd s query query_length db table_name id version type lop =
      if env.log_schema_op_impl
          (schema_op_of env thd query query_length db table_name id version type lop) != 0 then
        .returned false (push_warning
          { s with written := s.written ++
              [schema_op_of env thd query query_length db table_name id version type lop] }
          "Schema distribution failed!")
      else
        .returned true
          { s with written := s.written ++
              [schema_op_of env thd query query_length db table_name id version type lop] } := by
  obtain ⟨share, hs⟩ := Option.isSome_iff_exists.mp hshare
  unfold log_schema_op schema_op_of
  simp only [hdb, htab, hs, hkey, hopt, hlimits]
  rfl

theorem check_keys_limits_eq_none_iff (env : Env) (keys : List (String × String)) :
    check_keys_limits env keys = none ↔
      ∀ key ∈ keys, env.check_column_identifier_limit Column.COL_DB key.1 = true ∧
        env.check_column_identifier_limit Column.COL_NAME key.2 = true := by
  induction keys with
  | nil => simp [check_keys_limits]
  | cons key rest ih =>
    simp only [check_keys_limits, List.mem_cons, forall_eq_or_imp]
    cases h1 : env.check_column_identifier_limit Column.COL_DB key.1
    · simp
    · cases h2 : env.check_column_identifier_limit Column.COL_NAME key.2
      · simp
      · simpa using ih

/-- C1, counterexample.  The claim promises, for every client state and every pair that is
not registered, the result false together with a pushed warning.  With the temporary name
`#sql-1` as database on the client prepared for `("d", "t1")` the call returns false and
leaves the state as it was: no warning is pushed.  On a client that never prepared, the call
does not return at all: `ndbrequire(m_share)` ends the process. -/
theorem log_schema_op_unprepared_counterexample :
    (("#sql-1", "t1") ∉ example_prepared.m_prepared_keys ∧
      log_schema_op example_env example_thd example_prepared "q" 1 "#sql-1" "t1" 1 1
        SOT_CREATE_TABLE true = .returned false example_prepared) ∧
    (("d", "t1") ∉ (State.init 0).m_prepared_keys ∧
      log_schema_op example_env example_thd (State.init 0) "q" 1 "d" "t1" 1 1
        SOT_CREATE_TABLE true = .aborted (State.init 0)) := by
  decide

/-- C1, amended.  For a pair `(db, table_name)` that is not among the prepared keys of the
client, whatever the state, operation kind, id, version and query: `log_schema_op` hands no
record to the write primitive and does not return true; and when neither name is temporary
and the client holds the share of the mailbox table, it returns false after pushing the
warning `INTERNAL ERROR: prepared keys didn't match`, the state being otherwise unchanged. -/
theorem log_schema_op_unprepared (env : Env) (thd : THD) (s : State) (query : String)
    (query_length : Nat) (db table_name : String) (id version : Nat) (type : SCHEMA_OP_TYPE)
    (lop : Bool) (hkey : (db, table_name) ∉ s.m_prepared_keys) :
    (log_schema_op env thd s query query_length db table_name id version type lop).st.written
        = s.written ∧
    (∀ st, log_schema_op env thd s query query_length db table_name id version type lop
        ≠ .returned true st) ∧
    (env.ndb_name_is_temp db = false → env.ndb_name_is_temp table_name = false →
      s.m_share.isSome = true →
      log_schema_op env thd s query query_length db table_name id version type lop =
        .returned false (push_warning s "INTERNAL ERROR: prepared keys didn't match")) := by
  have hk : check_key s.m_prepared_keys db table_name = false :=
    (check_key_eq_false_iff _ _ _).mpr hkey
  unfold log_schema_op
  refine ⟨?_, ?_, ?_⟩
  · split
    · rfl
    · split
      · rfl
      · simp [hk, Outcome.st, push_warning]
  · intro st
    split
    · simp
    · split
      · simp
      · simp [hk]
  · intro hdb htab hshare
    obtain ⟨share, hs⟩ := Option.isSome_iff_exists.mp hshare
    simp [hdb, htab, hs, hk]

/-- C1, witness: on the client prepared for `("d", "t1")`, a call for `("d", "t2")`. -/
theorem log_schema_op_unprepared_witness :
    log_schema_op example_env example_thd example_prepared "q" 1 "d" "t2" 1 1
      SOT_CREATE_TABLE true =
      .returned false
        (push_warning example_prepared "INTERNAL ERROR: prepared keys didn't match") :=
  (log_schema_op_unprepared example_env example_thd example_prepared "q" 1 "d" "t2" 1 1
    SOT_CREATE_TABLE true (by decide)).2.2 (by decide) (by decide) (by decide)

/-- C2, counterexample.  The claim promises success for every call made while
`NO_LOG_SCHEMA_OP` is set.  On the client prepared for `("d", "t1")`, with the option set,
the call for the unprepared `("d", "t2")` returns false (with the warning of the key check):
the option is only looked at after the checks of the names, the share and the key. -/
theorem log_schema_op_no_log_counterexample :
    example_thd_no_log.no_log_schema_op = true ∧
    log_schema_op example_env example_thd_no_log example_prepared "q" 1 "d" "t2" 1 1
      SOT_CREATE_TABLE true =
      .returned false
        (push_warning example_prepared "INTERNAL ERROR: prepared keys didn't match") := by
  decide

/-- C2, amended.  While the session has `NO_LOG_SCHEMA_OP` set, for every operation kind and
all arguments: `log_schema_op` hands no record to the write primitive; and when neither name
is temporary, the client holds the share of the mailbox table and the pair is a prepared
key, it returns true and leaves the state unchanged (no warning either). -/
theorem log_schema_op_no_log (env : Env) (thd : THD) (s : State) (query : String)
    (query_length : Nat) (db table_name : String) (id version : Nat) (type : SCHEMA_OP_TYPE)
    (lop : Bool) (hopt : thd.no_log_schema_op = true) :
    (log_schema_op env thd s query query_length db table_name id version type lop).st.written
        = s.written ∧
    (env.ndb_name_is_temp db = false → env.ndb_name_is_temp table_name = false →
      s.m_share.isSome = true → (db, table_name) ∈ s.m_prepared_keys →
      log_schema_op env thd s query query_length db table_name id version type lop =
        .returned true s) := by
  unfold log_schema_op
  refine ⟨?_, ?_⟩
  · split
    · rfl
    · split
      · rfl
      · split
        · rfl
        · simp [hopt, Outcome.st]
  · intro hdb htab hshare hkey
    obtain ⟨share, hs⟩ := Option.isSome_iff_exists.mp hshare
    have hk : check_key s.m_prepared_keys db table_name = true :=
      (check_key_iff_mem _ _ _).mpr hkey
    simp [hdb, htab, hs, hk, hopt]

/-- C2, witness: the prepared pair `("d", "t1")` with the option set, kind `DROP_TABLE`. -/
theorem log_schema_op_no_log_witness :
    log_schema_op example_env example_thd_no_log example_prepared "q" 1 "d" "t1" 1 1
      SOT_DROP_TABLE true = .returned true example_prepared :=
  (log_schema_op_no_log example_env example_thd_no_log example_prepared "q" 1 "d" "t1" 1 1
    SOT_DROP_TABLE true (by decide)).2 (by decide) (by decide) (by decide) (by decide)

/-! ## Claims on the anyvalue -/

/-- C4, counterexample.  On a local thread with binary logging on and the test switch off,
the claim promises the normal encoding without the no-logging encoding for the argument
false, and the no-logging encoding for the argument true.  The code does the reverse:
with the argument false the value is `0x8000007f`, the no-logging encoding; with the
argument true it is 0, the normal encoding, which is not the no-logging one. -/
theorem calculate_anyvalue_local_counterexample :
    example_thd.slave_thread = false ∧ example_thd.option_bin_log = true ∧
    example_env.test_anyvalue_userdata = false ∧
    calculate_anyvalue example_env example_thd false = 0x8000007f ∧
    example_env.anyvalue_is_nologging (calculate_anyvalue example_env example_thd false)
      = true ∧
    calculate_anyvalue example_env example_thd true = 0 ∧
    example_env.anyvalue_is_nologging (calculate_anyvalue example_env example_thd true)
      = false := by
  decide

/-- C4, amended.  On a local thread (not a replication-apply thread) whose session has
binary logging enabled, with the test switch off: `calculate_anyvalue` called with the
argument true, which is what `log_schema_op` passes when the query is to be logged on the
participants, returns the normal encoding (`ndbcluster_anyvalue_set_normal` of 0), which
does not carry the no-logging encoding; called with the argument false it returns that
value with `ndbcluster_anyvalue_set_nologging` applied, which carries the no-logging
encoding.  The two hypotheses on the helpers say that the reader of the encoding
recognises what the no-logging setter writes and does not recognise the normal value. -/
theorem calculate_anyvalue_local (env : Env) (thd : THD)
    (hlocal : thd.slave_thread = false) (hbin : thd.option_bin_log = true)
    (hswitch : env.test_anyvalue_userdata = false)
    (hset : ∀ v, env.anyvalue_is_nologging (env.anyvalue_set_nologging v) = true)
    (hnormal : env.anyvalue_is_nologging (env.anyvalue_set_normal 0) = false) :
    calculate_anyvalue env thd true = env.anyvalue_set_normal 0 ∧
    env.anyvalue_is_nologging (calculate_anyvalue env thd true) = false ∧
    calculate_anyvalue env thd false
      = env.anyvalue_set_nologging (env.anyvalue_set_normal 0) ∧
    env.anyvalue_is_nologging (calculate_anyvalue env thd false) = true := by
  have h1 : calculate_anyvalue env thd true = env.anyvalue_set_normal 0 := by
    simp [calculate_anyvalue, hlocal, hbin, hswitch]
  have h2 : calculate_anyvalue env thd false
      = env.anyvalue_set_nologging (env.anyvalue_set_normal 0) := by
    simp [calculate_anyvalue, hlocal, hbin, hswitch]
  refine ⟨h1, ?_, h2, ?_⟩
  · rw [h1]; exact hnormal
  · rw [h2]; exact hset _

/-- The no-logging setter of the example environment writes what its reader recognises. -/
theorem ndbcluster_anyvalue_is_nologging_set (v : Nat) :
    ndbcluster_anyvalue_is_nologging (ndbcluster_anyvalue_set_nologging v) = true := by
  unfold ndbcluster_anyvalue_is_nologging ndbcluster_anyvalue_set_nologging
  rw [beq_iff_eq]
  apply Nat.eq_of_testBit_eq
  intro i
  simp only [Nat.testBit_and, Nat.testBit_or]
  cases Nat.testBit 0x8000007f i <;> simp

/-- C4, witness: the example environment and session. -/
theorem calculate_anyvalue_local_witness :
    calculate_anyvalue example_env example_thd true = 0 ∧
    calculate_anyvalue example_env example_thd false = 0x8000007f :=
  have h := calculate_anyvalue_local example_env example_thd (by decide) (by decide)
    (by decide) ndbcluster_anyvalue_is_nologging_set (by decide)
  ⟨h.1.trans (by decide), h.2.2.1.trans (by decide)⟩

/-- C5.  On a replication-apply thread, with the test switch off, `calculate_anyvalue`
returns exactly the unmasked server id of the session, whatever the binary-logging flag of
the session and whatever its argument. -/
theorem calculate_anyvalue_slave (env : Env) (thd : THD) (force_nologging : Bool)
    (hslave : thd.slave_thread = true) (hswitch : env.test_anyvalue_userdata = false) :
    calculate_anyvalue env thd force_nologging = thd.unmasked_server_id := by
  simp [calculate_anyvalue, hslave, hswitch]

/-- C5, witness: the replication-apply session of the examples, server id 7. -/
theorem calculate_anyvalue_slave_witness :
    calculate_anyvalue example_env example_thd_slave false = 7 :=
  calculate_anyvalue_slave example_env example_thd_slave false (by decide) (by decide)

/-! ## Claims on the identifier allocator -/

/-- C6.  For every value `c` of the 32-bit counter, a call of `unique_id` returns
`(c + 1) mod 2^32` when that is not zero, and 1 when `c = 2^32 - 1`; it leaves the counter
equal to the value it returns (and the rest of the state as it was), and the value it
returns is never 0 and fits 32 bits. -/
theorem unique_id_spec (s : State) (hc : s.schema_dist_id_sequence < 4294967296) :
    ((s.schema_dist_id_sequence + 1) % 4294967296 ≠ 0 →
      (unique_id s).1 = (s.schema_dist_id_sequence + 1) % 4294967296) ∧
    (s.schema_dist_id_sequence = 4294967295 → (unique_id s).1 = 1) ∧
    (unique_id s).2 = { s with schema_dist_id_sequence := (unique_id s).1 } ∧
    (unique_id s).1 ≠ 0 ∧ (unique_id s).1 < 4294967296 := by
  by_cases h : (s.schema_dist_id_sequence + 1) % 4294967296 = 0
  · have hmax : s.schema_dist_id_sequence = 4294967295 := by omega
    simp [unique_id, increment_sequence, hmax]
  · have hne : s.schema_dist_id_sequence ≠ 4294967295 := by omega
    have hv : unique_id s =
        ((s.schema_dist_id_sequence + 1) % 4294967296,
          { s with schema_dist_id_sequence :=
              (s.schema_dist_id_sequence + 1) % 4294967296 }) := by
      simp [unique_id, increment_sequence, h]
    rw [hv]
    refine ⟨fun _ => rfl, fun hmax => absurd hmax hne, rfl, h, ?_⟩
    exact Nat.mod_lt _ (by decide)

/-- C6, witness: the counter at its largest value, and the counter at 41. -/
theorem unique_id_spec_witness :
    (unique_id (State.init 4294967295)).1 = 1 ∧
    (unique_id (State.init 41)).1 = 42 :=
  ⟨(unique_id_spec (State.init 4294967295) (by decide)).2.1 (by decide),
   ((unique_id_spec (State.init 41) (by decide)).1 (by decide)).trans (by decide)⟩

/-- The value of `unique_id` in closed form: the successor of the counter in the cycle
`1, 2, ..., 2^32 - 1`. -/
theorem unique_id_fst (s : State) :
    (unique_id s).1 = (s.schema_dist_id_sequence % 4294967296) % 4294967295 + 1 := by
  by_cases h : (s.schema_dist_id_sequence + 1) % 4294967296 = 0
  · simp only [unique_id, increment_sequence, h, beq_self_eq_true, if_true]
    omega
  · simp only [unique_id, increment_sequence, beq_iff_eq, h, if_false]
    omega

theorem unique_id_snd_sequence (s : State) :
    (unique_id s).2.schema_dist_id_sequence = (unique_id s).1 := by
  by_cases h : (s.schema_dist_id_sequence + 1) % 4294967296 = 0
  · simp [unique_id, increment_sequence, h]
  · simp [unique_id, increment_sequence, h]

/-- The values of `n` consecutive calls in closed form. -/
theorem unique_ids_eq_map (n : Nat) (s : State) :
    unique_ids n s = (List.range n).map
      (fun k => (s.schema_dist_id_sequence % 4294967296 + k) % 4294967295 + 1) := by
  induction n generalizing s with
  | zero => rfl
  | succ n ih =>
    rw [unique_ids, ih, List.range_succ_eq_map, List.map_cons, List.map_map,
      unique_id_snd_sequence, unique_id_fst]
    congr 1
    apply List.map_congr_left
    intro k _
    simp only [Function.comp, Nat.succ_eq_add_one]
    omega

theorem unique_ids_length (n : Nat) (s : State) : (unique_ids n s).length = n := by
  rw [unique_ids_eq_map, List.length_map, List.length_range]

/-- Two calls that return the same value are at least `2^32 - 1` calls apart. -/
theorem unique_ids_eq_apart (m : Nat) (s : State) (i j : Nat) (hij : i < j) (hj : j < m)
    (heq : (unique_ids m s)[i]? = (unique_ids m s)[j]?) : 4294967295 ≤ j - i := by
  have hi : i < m := Nat.lt_trans hij hj
  rw [unique_ids_eq_map] at heq
  simp only [List.getElem?_map, List.getElem?_range hi, List.getElem?_range hj,
    Option.map_some', Option.some.injEq] at heq
  omega

/-- Consecutive calls return consecutive values, except at the wrap from `2^32 - 1` to 1. -/
theorem unique_ids_chain (n : Nat) (s : State) :
    List.Chain' (fun a b => b = a + 1 ∨ (a = 4294967295 ∧ b = 1)) (unique_ids n s) := by
  induction n generalizing s with
  | zero => exact List.chain'_nil
  | succ n ih =>
    rw [unique_ids, List.chain'_cons']
    refine ⟨?_, ih _⟩
    intro b hb
    cases n with
    | zero => simp [unique_ids] at hb
    | succ k =>
      simp only [unique_ids, List.head?_cons, Option.mem_def, Option.some.injEq] at hb
      have h1 := unique_id_fst (unique_id s).2
      rw [unique_id_snd_sequence] at h1
      have h2 := unique_id_fst s
      omega

/-- C7.  From every value of the 32-bit counter, the values returned by `n` consecutive
calls of `unique_id`, for `n ≤ 2^32 - 1`, are pairwise distinct; each call returns the
value of the call before it plus one, except at the wrap where `2^32 - 1` is followed by 1
(strictly increasing until the counter wraps); and in a run of any length, two calls that
return the same value are at least `2^32 - 1` calls apart: the whole non-zero 32-bit range
has been handed out in between. -/
theorem unique_ids_distinct (s : State) (n : Nat) (hn : n ≤ 4294967295) :
    (unique_ids n s).Nodup ∧
    List.Chain' (fun a b => b = a + 1 ∨ (a = 4294967295 ∧ b = 1)) (unique_ids n s) ∧
    (∀ m i j, i < j → j < m → (unique_ids m s)[i]? = (unique_ids m s)[j]? →
      4294967295 ≤ j - i) := by
  refine ⟨?_, unique_ids_chain n s, fun m i j hij hj heq =>
    unique_ids_eq_apart m s i j hij hj heq⟩
  rw [unique_ids_eq_map]
  apply List.Nodup.map_on _ (List.nodup_range n)
  intro x hx y hy hxy
  rw [List.mem_range] at hx hy
  omega

/-- C7, witness: three calls from the counter at `2^32 - 2` return `2^32 - 1, 1, 2`. -/
theorem unique_ids_distinct_witness :
    unique_ids 3 (State.init 4294967294) = [4294967295, 1, 2] ∧
    (unique_ids 3 (State.init 4294967294)).Nodup :=
  ⟨by decide, (unique_ids_distinct (State.init 4294967294) 3 (by decide)).1⟩

/-! ## Claims on the operation catalog -/

theorem to_uint32_ne_zero (i : Int) (hr : int_range i) (hi : i ≠ 0) : to_uint32 i ≠ 0 := by
  unfold int_range at hr
  unfold to_uint32
  omega

theorem to_uint32_to_int (n : Nat) (hn : n < 4294967296) : to_uint32 (to_int n) = n := by
  unfold to_uint32 to_int
  split <;> omega

theorem supplied_nonzero_to_uint32 (id version : Int) (h : supplied_nonzero id version) :
    to_uint32 id ≠ 0 ∧ to_uint32 version ≠ 0 :=
  ⟨to_uint32_ne_zero id h.1 h.2.2.1, to_uint32_ne_zero version h.2.1 h.2.2.2⟩

theorem unique_id_snd_written (s : State) : (unique_id s).2.written = s.written := by
  by_cases h : (s.schema_dist_id_sequence + 1) % 4294967296 = 0
  · simp [unique_id, increment_sequence, h]
  · simp [unique_id, increment_sequence, h]

theorem unique_id_fst_ne_zero (s : State) : (unique_id s).1 ≠ 0 := by
  rw [unique_id_fst]; omega

theorem unique_id_fst_lt (s : State) : (unique_id s).1 < 4294967296 := by
  rw [unique_id_fst]; omega

/-- With non-zero `id` and `version`, what a call of `log_schema_op` adds to the records
handed over has both fields non-zero. -/
theorem log_schema_op_new_records (env : Env) (thd : THD) (s0 s : State)
    (hs : s.written = s0.written) (query : String) (query_length : Nat)
    (db table_name : String) (id version : Nat) (type : SCHEMA_OP_TYPE) (lop : Bool)
    (hid : id ≠ 0) (hver : version ≠ 0) :
    ∃ l, (log_schema_op env thd s query query_length db table_name id version type
        lop).st.written = s0.written ++ l ∧ ∀ r ∈ l, r.id ≠ 0 ∧ r.version ≠ 0 := by
  rcases log_schema_op_written env thd s query query_length db table_name id version type
    lop with h | h
  · exact ⟨[], by rw [h, hs, List.append_nil], by simp⟩
  · refine ⟨[schema_op_of env thd query query_length db table_name id version type lop],
      by rw [h, hs], ?_⟩
    intro r hr
    rw [List.mem_singleton] at hr
    subst hr
    exact ⟨hid, hver⟩

/-- C3, counterexample.  The claim promises non-zero `id` and `version` in every record,
whatever the caller supplies.  On the client prepared for `("d", "t1")`,
`create_table("d", "t1", 0, 0)` hands over a record whose `id` and `version` are both 0:
the values of the caller are passed on as they are. -/
theorem create_table_zero_id_counterexample :
    (create_table example_env example_thd example_prepared "d" "t1" 0 0).st.written =
      [{ query := "create table t1 (a int)", query_length := 23, db := "d",
         table_name := "t1", id := 0, version := 0, type := SOT_CREATE_TABLE,
         anyvalue := 0 }] := by
  decide

/-- C3, amended.  For every operation of the client (`log_schema_op` itself or any entry
point of the catalog), on a node whose id is non-zero: when the caller supplies non-zero
`id` and `version` wherever the operation takes them from the caller (`drop_table` may
also be given zero for both; `drop_db` and `acl_notify` take none), every record that the
call hands to the write primitive has `id ≠ 0` and `version ≠ 0`. -/
theorem run_new_records_nonzero (env : Env) (thd : THD) (s : State) (c : Call)
    (hids : c.ids_nonzero) (hnode : thd.node_id ≠ 0) (hnode32 : thd.node_id < 4294967296) :
    ∃ l, (c.run env thd s).st.written = s.written ++ l ∧
      ∀ r ∈ l, r.id ≠ 0 ∧ r.version ≠ 0 := by
  have hver : unique_version thd ≠ 0 := hnode
  have hnone : ∀ msg, ∃ l, (Outcome.returned false (push_warning s msg)).st.written
      = s.written ++ l ∧ ∀ r ∈ l, r.id ≠ 0 ∧ r.version ≠ 0 :=
    fun msg => ⟨[], by simp [Outcome.st, push_warning], by simp⟩
  cases c with
  | log_schema_op query query_length db table_name id version type lop =>
    exact log_schema_op_new_records env thd s s rfl _ _ _ _ _ _ _ _ hids.1 hids.2
  | create_table db table_name id version =>
    have h := supplied_nonzero_to_uint32 id version hids
    simp only [Call.run, create_table]
    split
    · exact ⟨[], by simp [Outcome.st], by simp⟩
    · exact log_schema_op_new_records env thd s s rfl _ _ _ _ _ _ _ _ h.1 h.2
  | drop_table db table_name id version lop =>
    simp only [Call.run, drop_table]
    rcases hids with hids | ⟨h1, h2⟩
    · have h := supplied_nonzero_to_uint32 id version hids
      have hne : (id == 0 && version == 0) = false := by
        simp only [Bool.and_eq_false_iff, beq_eq_false_iff_ne]
        exact Or.inl hids.2.2.1
      rw [hne]
      exact log_schema_op_new_records env thd s s rfl _ _ _ _ _ _ _ _ h.1 h.2
    · subst h1 h2
      simp only [beq_self_eq_true, Bool.and_self, if_true]
      apply log_schema_op_new_records env thd s _ (unique_id_snd_written s)
      · rw [to_uint32_to_int _ (unique_id_fst_lt s)]
        exact unique_id_fst_ne_zero s
      · rw [to_uint32_to_int (unique_version thd) hnode32]
        exact hver
  | create_db query query_length db id version =>
    simp only [Call.run, create_db]
    split
    · exact hnone _
    · exact log_schema_op_new_records env thd s s rfl _ _ _ _ _ _ _ _ hids.1 hids.2
  | alter_db query query_length db id version =>
    simp only [Call.run, alter_db]
    split
    · exact hnone _
    · exact log_schema_op_new_records env thd s s rfl _ _ _ _ _ _ _ _ hids.1 hids.2
  | drop_db db =>
    simp only [Call.run, drop_db]
    split
    · exact hnone _
    · exact log_schema_op_new_records env thd s _ (unique_id_snd_written s) _ _ _ _ _ _ _ _
        (unique_id_fst_ne_zero s) hver
  | acl_notify query query_length db =>
    exact log_schema_op_new_records env thd s _ (unique_id_snd_written s) _ _ _ _ _ _ _ _
      (unique_id_fst_ne_zero s) hver
  | truncate_table db table_name id version =>
    have h := supplied_nonzero_to_uint32 id version hids
    exact log_schema_op_new_records env thd s s rfl _ _ _ _ _ _ _ _ h.1 h.2
  | alter_table db table_name id version lop =>
    have h := supplied_nonzero_to_uint32 id version hids
    exact log_schema_op_new_records env thd s s rfl _ _ _ _ _ _ _ _ h.1 h.2
  | alter_table_inplace_prepare db table_name id version =>
    have h := supplied_nonzero_to_uint32 id version hids
    exact log_schema_op_new_records env thd s s rfl _ _ _ _ _ _ _ _ h.1 h.2
  | alter_table_inplace_commit db table_name id version =>
    have h := supplied_nonzero_to_uint32 id version hids
    exact log_schema_op_new_records env thd s s rfl _ _ _ _ _ _ _ _ h.1 h.2
  | rename_table_prepare db table_name id version new_key =>
    have h := supplied_nonzero_to_uint32 id version hids
    exact log_schema_op_new_records env thd s s rfl _ _ _ _ _ _ _ _ h.1 h.2
  | rename_table db table_name id version new_dbname new_tabname lop =>
    have h := supplied_nonzero_to_uint32 id version hids
    exact log_schema_op_new_records env thd s s rfl _ _ _ _ _ _ _ _ h.1 h.2
  | tablespace_changed name id version =>
    have h := supplied_nonzero_to_uint32 id version hids
    exact log_schema_op_new_records env thd s s rfl _ _ _ _ _ _ _ _ h.1 h.2
  | logfilegroup_changed name id version =>
    have h := supplied_nonzero_to_uint32 id version hids
    exact log_schema_op_new_records env thd s s rfl _ _ _ _ _ _ _ _ h.1 h.2
  | create_tablespace name id version =>
    have h := supplied_nonzero_to_uint32 id version hids
    exact log_schema_op_new_records env thd s s rfl _ _ _ _ _ _ _ _ h.1 h.2
  | alter_tablespace name id version =>
    have h := supplied_nonzero_to_uint32 id version hids
    exact log_schema_op_new_records env thd s s rfl _ _ _ _ _ _ _ _ h.1 h.2
  | drop_tablespace name id version =>
    have h := supplied_nonzero_to_uint32 id version hids
    exact log_schema_op_new_records env thd s s rfl _ _ _ _ _ _ _ _ h.1 h.2
  | create_logfile_group name id version =>
    have h := supplied_nonzero_to_uint32 id version hids
    exact log_schema_op_new_records env thd s s rfl _ _ _ _ _ _ _ _ h.1 h.2
  | alter_logfile_group name id version =>
    have h := supplied_nonzero_to_uint32 id version hids
    exact log_schema_op_new_records env thd s s rfl _ _ _ _ _ _ _ _ h.1 h.2
  | drop_logfile_group name id version =>
    have h := supplied_nonzero_to_uint32 id version hids
    exact log_schema_op_new_records env thd s s rfl _ _ _ _ _ _ _ _ h.1 h.2

/-- C3, witness: `drop_table("d", "t1", 0, 0)` on the prepared client of the examples, node
4, counter at 0: the record carries the fresh id 1 and the node id 4. -/
theorem run_new_records_nonzero_witness :
    (Call.run example_env example_thd example_prepared
        (.drop_table "d" "t1" 0 0 true)).st.written =
      [{ query := "drop table `d`.`t1`", query_length := 19, db := "d", table_name := "t1",
         id := 1, version := 4, type := SOT_DROP_TABLE, anyvalue := 0 }] ∧
    ∃ l, (Call.run example_env example_thd example_prepared
        (.drop_table "d" "t1" 0 0 true)).st.written = example_prepared.written ++ l ∧
      ∀ r ∈ l, r.id ≠ 0 ∧ r.version ≠ 0 :=
  ⟨by decide,
   run_new_records_nonzero example_env example_thd example_prepared
    (.drop_table "d" "t1" 0 0 true) (Or.inr ⟨rfl, rfl⟩) (by decide) (by decide)⟩

/-- C8.  `create_table` called with the database name and the table name of the mailbox
table returns true and leaves the state as it is (no record is handed over, no warning),
for every state of the client (prepared or not, whatever its keys), every session (option
to suppress distribution set or not), and every id and version; for any other pair it is
the call of `log_schema_op` with the query of the session, the id and version converted to
`uint32`, and the kind `SOT_CREATE_TABLE`. -/
theorem create_table_schema_dist_table (env : Env) (thd : THD) (s : State)
    (db table_name : String) (id version : Int) :
    (db = env.DB_NAME ∧ table_name = env.TABLE_NAME →
      create_table env thd s db table_name id version = .returned true s) ∧
    (¬ (db = env.DB_NAME ∧ table_name = env.TABLE_NAME) →
      create_table env thd s db table_name id version =
        log_schema_op env thd s thd.query thd.query_length db table_name
          (to_uint32 id) (to_uint32 version) SOT_CREATE_TABLE true) := by
  constructor
  · rintro ⟨h1, h2⟩
    subst h1 h2
    simp [create_table, is_schema_dist_table]
  · intro h
    have hb : (db == env.DB_NAME && table_name == env.TABLE_NAME) = false := by
      simpa using h
    simp [create_table, is_schema_dist_table, hb, log_query_on_participant_default]

/-- C8, witness: `create_table("mysql", "ndb_schema", 0, 0)` on a client that never
prepared, and `create_table("d", "t1", 5, 6)` on the prepared client of the examples. -/
theorem create_table_schema_dist_table_witness :
    create_table example_env example_thd (State.init 0) "mysql" "ndb_schema" 0 0 =
      .returned true (State.init 0) ∧
    create_table example_env example_thd example_prepared "d" "t1" 5 6 =
      .returned true { example_prepared with written :=
        [{ query := "create table t1 (a int)", query_length := 23, db := "d",
           table_name := "t1", id := 5, version := 6, type := SOT_CREATE_TABLE,
           anyvalue := 0 }] } :=
  ⟨(create_table_schema_dist_table example_env example_thd (State.init 0) "mysql"
      "ndb_schema" 0 0).1 (by decide),
   ((create_table_schema_dist_table example_env example_thd example_prepared "d" "t1"
      5 6).2 (by decide)).trans (by decide)⟩

/-- C9, counterexample.  The claim asks only for `(db, table_name)` to be prepared, not
temporary and within the identifier limits, on a session that has not suppressed
distribution.  `check_identifier_limits` opens the mailbox table and checks every prepared
key.  After `prepare_rename("d", "t1", "d", name_over_limit)`, `drop_table("d", "t1", 0, 0)`
returns false with `INTERNAL ERROR: identifier limits exceeded` and hands over nothing,
because of the other key; and so it does on the client prepared for `("d", "t1")` alone
when the mailbox table does not open at the time of the call. -/
theorem drop_table_zero_id_version_counterexample :
    (("d", "t1") ∈ example_rename_over_limit.m_prepared_keys ∧
      example_rename_over_limit.m_share.isSome = true ∧
      example_env.ndb_name_is_temp "d" = false ∧ example_env.ndb_name_is_temp "t1" = false ∧
      example_env.check_column_identifier_limit Column.COL_DB "d" = true ∧
      example_env.check_column_identifier_limit Column.COL_NAME "t1" = true ∧
      example_thd.no_log_schema_op = false ∧
      drop_table example_env example_thd example_rename_over_limit "d" "t1" 0 0 true =
        .returned false (push_warning (unique_id example_rename_over_limit).2
          "INTERNAL ERROR: identifier limits exceeded") ∧
      (drop_table example_env example_thd example_rename_over_limit "d" "t1" 0 0
        true).st.written = []) ∧
    (("d", "t1") ∈ example_prepared.m_prepared_keys ∧
      drop_table example_env_open_fails example_thd example_prepared "d" "t1" 0 0 true =
        .returned false (push_warning (unique_id example_prepared).2
          "INTERNAL ERROR: identifier limits exceeded") ∧
      (drop_table example_env_open_fails example_thd example_prepared "d" "t1" 0 0
        true).st.written = []) := by
  decide

/-- C9, amended.  On a client that holds the share of the mailbox table and has
`(db, table_name)` among its prepared keys, neither name being temporary,
`check_identifier_limits` succeeding on the client (the mailbox table opens and every
prepared key is within the limits), and the session not having suppressed distribution:
`drop_table` called with
`id = 0` and `version = 0` hands over exactly one record, of kind `SOT_DROP_TABLE`, for
`(db, table_name)`, with the rewritten query, whose `id` is the value that `unique_id`
returns on the state of the call and whose `version` is `unique_version`, the node id; the
counter is left at that fresh id; the id is non-zero, and the version is non-zero whenever
the node id is. -/
theorem drop_table_zero_id_version (env : Env) (thd : THD) (s : State)
    (db table_name : String) (lop : Bool)
    (hdb : env.ndb_name_is_temp db = false) (htab : env.ndb_name_is_temp table_name = false)
    (hshare : s.m_share.isSome = true) (hkey : (db, table_name) ∈ s.m_prepared_keys)
    (hlimits : check_identifier_limits env s = none)
    (hopt : thd.no_log_schema_op = false) (hnode32 : thd.node_id < 4294967296) :
    (drop_table env thd s db table_name 0 0 lop).st.written = s.written ++
      [{ query := drop_table_query db table_name,
         query_length := to_int (drop_table_query db table_name).length,
         db := db, table_name := table_name,
         id := (unique_id s).1, version := thd.node_id,
         type := SOT_DROP_TABLE, anyvalue := calculate_anyvalue env thd lop }] ∧
    (drop_table env thd s db table_name 0 0 lop).st.schema_dist_id_sequence
      = (unique_id s).1 ∧
    (unique_id s).1 ≠ 0 ∧ unique_version thd = thd.node_id ∧
    (thd.node_id ≠ 0 → unique_version thd ≠ 0) := by
  have hk : check_key (unique_id s).2.m_prepared_keys db table_name = true := by
    rw [check_key_iff_mem]
    by_cases h : (s.schema_dist_id_sequence + 1) % 4294967296 = 0 <;>
      simpa [unique_id, increment_sequence, h] using hkey
  have hsh : (unique_id s).2.m_share.isSome = true := by
    by_cases h : (s.schema_dist_id_sequence + 1) % 4294967296 = 0 <;>
      simpa [unique_id, increment_sequence, h] using hshare
  have hlim : check_identifier_limits env (unique_id s).2 = none := by
    rw [← hlimits]
    by_cases h : (s.schema_dist_id_sequence + 1) % 4294967296 = 0 <;>
      simp [check_identifier_limits, unique_id, increment_sequence, h]
  have hcall := log_schema_op_emits env thd (unique_id s).2 (drop_table_query db table_name)
    (drop_table_query db table_name).length db table_name
    (to_uint32 (to_int (unique_id s).1)) (to_uint32 (to_int (unique_version thd)))
    SOT_DROP_TABLE lop hdb htab hsh hk hopt hlim
  have hrun : drop_table env thd s db table_name 0 0 lop =
      log_schema_op env thd (unique_id s).2 (drop_table_query db table_name)
        (drop_table_query db table_name).length db table_name
        (to_uint32 (to_int (unique_id s).1)) (to_uint32 (to_int (unique_version thd)))
        SOT_DROP_TABLE lop := by
    simp [drop_table]
  rw [hrun, hcall, to_uint32_to_int _ (unique_id_fst_lt s),
    to_uint32_to_int (unique_version thd) hnode32]
  refine ⟨?_, ?_, unique_id_fst_ne_zero s, rfl, fun h => h⟩
  · split <;>
      simp [Outcome.st, push_warning, schema_op_of, unique_id_snd_written, unique_version]
  · split <;> simp [Outcome.st, push_warning, unique_id_snd_sequence]

/-- C9, witness: `drop_table("d", "t1", 0, 0)` on the prepared client of the examples, node
4, counter at 0. -/
theorem drop_table_zero_id_version_witness :
    (drop_table example_env example_thd example_prepared "d" "t1" 0 0 true).st.written =
      [{ query := "drop table `d`.`t1`", query_length := 19, db := "d", table_name := "t1",
         id := 1, version := 4, type := SOT_DROP_TABLE, anyvalue := 0 }] :=
  ((drop_table_zero_id_version example_env example_thd example_prepared "d" "t1" true
    (by decide) (by decide) (by decide) (by decide) (by decide) (by decide)
    (by decide)).1).trans (by decide)

/-! ## The rewritten query of `rename_table` -/

theorem to_int_of_lt (n : Nat) (h : n < 2147483648) : to_int n = (n : Int) := by
  unfold to_int
  have h1 : n % 4294967296 = n := Nat.mod_eq_of_lt (by omega)
  rw [h1, if_pos h]

theorem check_keys_limits_eq_first_offending (env : Env) (width : Column → Nat)
    (hlimit : ∀ col identifier, env.check_column_identifier_limit col identifier =
      check_column_identifier_limit width col identifier)
    (keys : List (String × String)) :
    check_keys_limits env keys = first_offending_identifier width keys := by
  induction keys with
  | nil => rfl
  | cons key rest ih =>
    unfold first_offending_identifier at ih ⊢
    simp only [check_keys_limits, identifiers_in_order, List.find?_cons, hlimit,
      check_column_identifier_limit]
    by_cases h1 : key.1.length ≤ width Column.COL_DB
    · have h1n : ¬ width Column.COL_DB < key.1.length := by omega
      by_cases h2 : key.2.length ≤ width Column.COL_NAME
      · have h2n : ¬ width Column.COL_NAME < key.2.length := by omega
        simp [h1, h2, h1n, h2n, ih]
      · have h2n : width Column.COL_NAME < key.2.length := by omega
        simp [h1, h2, h1n, h2n]
    · have h1n : width Column.COL_DB < key.1.length := by omega
      simp [h1, h1n]

/-- C11.  With the mailbox table opening, and the check of a column being the comparison of
the length of the identifier with the width of the column (at the limit passes, one over
fails): `check_identifier_limits` succeeds iff, for every prepared key, the database name is
within the width of `COL_DB` and the table name within the width of `COL_NAME`; and what it
returns, on success and on failure, is the first name longer than the width of its column,
scanning the keys in registration order and the database name before the table name of each
key (nothing on success). -/
theorem check_identifier_limits_first_offending (env : Env) (s : State)
    (width : Column → Nat) (hopen : env.schema_dist_table_open = true)
    (hlimit : ∀ col identifier, env.check_column_identifier_limit col identifier =
      check_column_identifier_limit width col identifier) :
    (check_identifier_limits env s = none ↔
      ∀ key ∈ s.m_prepared_keys, key.1.length ≤ width Column.COL_DB ∧
        key.2.length ≤ width Column.COL_NAME) ∧
    check_identifier_limits env s = first_offending_identifier width s.m_prepared_keys ∧
    (∀ col identifier, identifier.length = width col →
      env.check_column_identifier_limit col identifier = true) ∧
    (∀ col identifier, identifier.length = width col + 1 →
      env.check_column_identifier_limit col identifier = false) := by
  have hc : check_identifier_limits env s = check_keys_limits env s.m_prepared_keys := by
    simp [check_identifier_limits, hopen]
  refine ⟨?_, ?_, ?_, ?_⟩
  · rw [hc, check_keys_limits_eq_none_iff]
    simp only [hlimit, check_column_identifier_limit, decide_eq_true_eq]
  · rw [hc]
    exact check_keys_limits_eq_first_offending env width hlimit _
  · intro col identifier h
    rw [hlimit, check_column_identifier_limit, decide_eq_true_eq]
    omega
  · intro col identifier h
    rw [hlimit, check_column_identifier_limit, decide_eq_false_iff_not]
    omega

/-- C11, witness, in the example environment (width 63 for both columns): a key whose two
names are exactly at the limit passes; with the keys `(at limit, over limit)` and then
`(second over limit, "t")` registered, the identifier returned is the table name of the
first key, the first offending name. -/
theorem check_identifier_limits_first_offending_witness :
    check_identifier_limits example_env
      { State.init 0 with m_prepared_keys := [(name_at_limit, name_at_limit)] } = none ∧
    check_identifier_limits example_env
      { State.init 0 with m_prepared_keys :=
          [(name_at_limit, name_over_limit), (name_over_limit_b, "t")] }
      = some name_over_limit :=
  ⟨((check_identifier_limits_first_offending example_env
      { State.init 0 with m_prepared_keys := [(name_at_limit, name_at_limit)] }
      (fun _ => 63) rfl (fun _ _ => rfl)).1).mpr (by decide),
   ((check_identifier_limits_first_offending example_env
      { State.init 0 with m_prepared_keys :=
          [(name_at_limit, name_over_limit), (name_over_limit_b, "t")] }
      (fun _ => 63) rfl (fun _ _ => rfl)).2.1).trans (by decide)⟩

/-! ## Claim on the record of a validated call -/

/-- C12.  For every call of `log_schema_op` that passes all validations (names not
temporary, share of the mailbox table held, key prepared, distribution not suppressed,
identifier limits satisfied), with a query length in the range of the `int` that the write
primitive takes, as the length of every text a caller passes is: exactly one record is
handed to the write primitive; its query, query length, db, table, id, version and kind are
the arguments of the call unchanged and its anyvalue is
`calculate_anyvalue(log_query_on_participant)`; the call returns true iff the write
primitive reports success (result code 0), leaving the state otherwise unchanged, and on
failure of the write it returns false after pushing the warning
`Schema distribution failed!`. -/
theorem log_schema_op_validated (env : Env) (thd : THD) (s : State) (query : String)
    (query_length : Nat) (db table_name : String) (id version : Nat) (type : SCHEMA_OP_TYPE)
    (lop : Bool)
    (hdb : env.ndb_name_is_temp db = false) (htab : env.ndb_name_is_temp table_name = false)
    (hshare : s.m_share.isSome = true) (hkey : (db, table_name) ∈ s.m_prepared_keys)
    (hopt : thd.no_log_schema_op = false)
    (hlimits : check_identifier_limits env s = none)
    (hlen : query_length < 2147483648) :
    let op : Schema_op :=
      { query := query, query_length := (query_length : Int), db := db,
        table_name := table_name, id := id, version := version, type := type,
        anyvalue := calculate_anyvalue env thd lop }
    (log_schema_op env thd s query query_length db table_name id version type
      lop).st.written = s.written ++ [op] ∧
    (env.log_schema_op_impl op = 0 →
      log_schema_op env thd s query query_length db table_name id version type lop =
        .returned true { s with written := s.written ++ [op] }) ∧
    (env.log_schema_op_impl op ≠ 0 →
      log_schema_op env thd s query query_length db table_name id version type lop =
        .returned false (push_warning { s with written := s.written ++ [op] }
          "Schema distribution failed!")) ∧
    ((∃ st, log_schema_op env thd s query query_length db table_name id version type lop
        = .returned true st) ↔ env.log_schema_op_impl op = 0) := by
  intro op
  have h := log_schema_op_emits env thd s query query_length db table_name id version type
    lop hdb htab hshare ((check_key_iff_mem _ _ _).mpr hkey) hopt hlimits
  have hop : schema_op_of env thd query query_length db table_name id version type lop
      = op := by
    unfold schema_op_of
    rw [to_int_of_lt _ hlen]
  rw [hop] at h
  refine ⟨?_, ?_, ?_, ?_⟩
  · rw [h]
    split <;> simp [Outcome.st, push_warning]
  · intro h0
    rw [h]
    simp [h0]
  · intro h0
    rw [h]
    simp [h0]
  · rw [h]
    by_cases h0 : env.log_schema_op_impl op = 0
    · simp [h0]
    · simp [h0]

/-- C12, witness: the validated call for `("d", "t1")` on the prepared client of the
examples, with a write primitive that succeeds and with one that fails. -/
theorem log_schema_op_validated_witness :
    log_schema_op example_env example_thd example_prepared "drop table t1" 13 "d" "t1" 7 8
        SOT_DROP_TABLE true =
      .returned true { example_prepared with written :=
        [{ query := "drop table t1", query_length := 13, db := "d", table_name := "t1",
           id := 7, version := 8, type := SOT_DROP_TABLE, anyvalue := 0 }] } ∧
    log_schema_op example_env_write_fails example_thd example_prepared "drop table t1" 13
        "d" "t1" 7 8 SOT_DROP_TABLE true =
      .returned false { example_prepared with
        written :=
          [{ query := "drop table t1", query_length := 13, db := "d", table_name := "t1",
             id := 7, version := 8, type := SOT_DROP_TABLE, anyvalue := 0 }],
        warnings := ["Schema distribution failed!"] } :=
  ⟨((log_schema_op_validated example_env example_thd example_prepared "drop table t1" 13
      "d" "t1" 7 8 SOT_DROP_TABLE true (by decide) (by decide) (by decide) (by decide)
      (by decide) (by decide) (by decide)).2.1 (by decide)).trans (by decide),
   ((log_schema_op_validated example_env_write_fails example_thd example_prepared
      "drop table t1" 13 "d" "t1" 7 8 SOT_DROP_TABLE true (by decide) (by decide)
      (by decide) (by decide) (by decide) (by decide) (by decide)).2.2.1
      (by decide)).trans (by decide)⟩

/-! ## Claim on the registration of the key by `prepare` -/

/-- C13.  `prepare(db, tabname)` registers `(db, tabname)` exactly when the readiness check
passes, that is when the share of the mailbox table exists and has its event operation.
When the check fails, `prepare` returns false, pushes `Schema distribution is not ready`
and leaves the prepared keys as they were.  When it passes, the key is appended to the
prepared keys whatever `prepare` returns: `prepare` returns true iff both tables open and
pass their schema check, and when it returns false for one of these reasons the key is
registered all the same, so that `check_key(db, tabname)` is true on the client from then
on, also after further keys are added. -/
theorem prepare_registers_key (env : Env) (s : State) (db tabname : String) :
    (share_not_ready env.schema_share = true ↔
      ¬ ∃ share, env.schema_share = some share ∧ share.have_event_operation = true) ∧
    (share_not_ready env.schema_share = true →
      (prepare env s db tabname).1 = false ∧
      (prepare env s db tabname).2.m_prepared_keys = s.m_prepared_keys ∧
      (prepare env s db tabname).2.warnings =
        s.warnings ++ ["Schema distribution is not ready"]) ∧
    (share_not_ready env.schema_share = false →
      (prepare env s db tabname).2.m_prepared_keys = s.m_prepared_keys ++ [(db, tabname)] ∧
      ((prepare env s db tabname).1 = true ↔
        (env.schema_dist_table_open = true ∧ env.schema_dist_table_check_schema = true ∧
          env.schema_result_table_open = true ∧
          env.schema_result_table_check_schema = true)) ∧
      (∀ more, check_key ((prepare env s db tabname).2.m_prepared_keys ++ more)
        db tabname = true)) := by
  refine ⟨?_, ?_, ?_⟩
  · cases hs : env.schema_share with
    | none => simp [share_not_ready]
    | some share => cases h : share.have_event_operation <;> simp [share_not_ready, h]
  · intro h
    simp [prepare, h, push_warning]
  · intro h
    have hkeys : (prepare env s db tabname).2.m_prepared_keys
        = s.m_prepared_keys ++ [(db, tabname)] := by
      simp only [prepare, h, add_key]
      cases env.schema_dist_table_open <;> cases env.schema_dist_table_check_schema <;>
        cases env.schema_result_table_open <;>
        cases env.schema_result_table_check_schema <;> rfl
    refine ⟨hkeys, ?_, ?_⟩
    · simp only [prepare, h]
      cases env.schema_dist_table_open <;> cases env.schema_dist_table_check_schema <;>
        cases env.schema_result_table_open <;>
        cases env.schema_result_table_check_schema <;> simp
    · intro more
      rw [hkeys, check_key_iff_mem]
      simp

/-- C13, witness: before the share exists, `prepare("d", "t1")` leaves the keys empty; with
the share ready but the result table failing its schema check, `prepare` returns false and
`check_key("d", "t1")` is true afterwards. -/
theorem prepare_registers_key_witness :
    (prepare example_env_not_ready (State.init 0) "d" "t1").2.m_prepared_keys = [] ∧
    (prepare example_env_result_mismatch (State.init 0) "d" "t1").1 = false ∧
    check_key (prepare example_env_result_mismatch (State.init 0) "d" "t1").2.m_prepared_keys
      "d" "t1" = true :=
  ⟨((prepare_registers_key example_env_not_ready (State.init 0) "d" "t1").2.1
      (by decide)).2.1,
   by decide,
   by simpa using ((prepare_registers_key example_env_result_mismatch (State.init 0) "d"
      "t1").2.2 (by decide)).2.2 []⟩

/-! ## Claim on the rewritten queries -/

/-- Two lists that agree, each cut at a mark that does not occur before the cut, agree
before and after the cut. -/
theorem append_cons_inj_of_not_mem_left (c : Char) :
    ∀ (a b x y : List Char), c ∉ a → c ∉ b → a ++ c :: x = b ++ c :: y → a = b ∧ x = y := by
  intro a
  induction a with
  | nil =>
    intro b x y _ hb h
    cases b with
    | nil => exact ⟨rfl, by simpa using h⟩
    | cons d b =>
      simp only [List.nil_append, List.cons_append, List.cons.injEq] at h
      exact absurd (h.1 ▸ List.mem_cons_self d b) hb
  | cons e a ih =>
    intro b x y ha hb h
    cases b with
    | nil =>
      simp only [List.nil_append, List.cons_append, List.cons.injEq] at h
      exact absurd (h.1 ▸ List.mem_cons_self e a) ha
    | cons d b =>
      simp only [List.cons_append, List.cons.injEq] at h
      have h' := ih b x y (fun hm => ha (List.mem_cons_of_mem _ hm))
        (fun hm => hb (List.mem_cons_of_mem _ hm)) h.2
      exact ⟨by rw [h.1, h'.1], h'.2⟩

theorem drop_table_query_data (db table_name : String) :
    (drop_table_query db table_name).data =
      "drop table `".data ++ (db.data ++ backquote :: (".`".data ++
        (table_name.data ++ [backquote]))) := by
  have e1 : "`.`".data = backquote :: ".`".data := by decide
  have e2 : "`".data = [backquote] := by decide
  simp only [drop_table_query, String.data_append, List.append_assoc, e1, e2,
    List.cons_append]
  rfl

theorem rename_table_query_data (db table_name new_dbname new_tabname : String) :
    (rename_table_query db table_name new_dbname new_tabname).data =
      "rename table `".data ++ (db.data ++ backquote :: (".`".data ++
        (table_name.data ++ backquote :: (" to `".data ++
          (new_dbname.data ++ backquote :: (".`".data ++
            (new_tabname.data ++ [backquote]))))))) := by
  have e1 : "`.`".data = backquote :: ".`".data := by decide
  have e2 : "`".data = [backquote] := by decide
  have e3 : "` to `".data = backquote :: " to `".data := by decide
  simp only [rename_table_query, String.data_append, List.append_assoc, e1, e2, e3,
    List.cons_append]
  rfl

/-- C14.  The rewritten queries are the concatenations of the fixed pieces and the names as
they are, nothing being escaped; and on names without a backquote they are injective:
equal texts of `drop_table` come from the same `db` and the same `table_name`, and equal
texts of `rename_table` from the same four names. -/
theorem rewritten_query_injective :
    (∀ db table_name : String, drop_table_query db table_name =
      "drop table `" ++ db ++ "`.`" ++ table_name ++ "`") ∧
    (∀ db table_name new_dbname new_tabname : String,
      rename_table_query db table_name new_dbname new_tabname =
        "rename table `" ++ db ++ "`.`" ++ table_name ++ "` to `" ++ new_dbname ++ "`.`"
          ++ new_tabname ++ "`") ∧
    (∀ db table_name db2 table_name2 : String,
      no_backquote db → no_backquote table_name → no_backquote db2 →
      no_backquote table_name2 →
      drop_table_query db table_name = drop_table_query db2 table_name2 →
      db = db2 ∧ table_name = table_name2) ∧
    (∀ db table_name new_dbname new_tabname db2 table_name2 new_dbname2 new_tabname2 : String,
      no_backquote db → no_backquote table_name → no_backquote new_dbname →
      no_backquote new_tabname → no_backquote db2 → no_backquote table_name2 →
      no_backquote new_dbname2 → no_backquote new_tabname2 →
      rename_table_query db table_name new_dbname new_tabname =
        rename_table_query db2 table_name2 new_dbname2 new_tabname2 →
      db = db2 ∧ table_name = table_name2 ∧ new_dbname = new_dbname2 ∧
        new_tabname = new_tabname2) := by
  refine ⟨fun _ _ => rfl, fun _ _ _ _ => rfl, ?_, ?_⟩
  · intro db t db2 t2 hdb _ hdb2 _ h
    have hd := congrArg String.data h
    rw [drop_table_query_data, drop_table_query_data] at hd
    have h1 := append_cons_inj_of_not_mem_left backquote _ _ _ _ hdb hdb2
      (List.append_cancel_left hd)
    have h2 := List.append_cancel_right (List.append_cancel_left h1.2)
    exact ⟨String.ext h1.1, String.ext h2⟩
  · intro db t nd nt db2 t2 nd2 nt2 hdb ht hnd _ hdb2 ht2 hnd2 _ h
    have hd := congrArg String.data h
    rw [rename_table_query_data, rename_table_query_data] at hd
    have h1 := append_cons_inj_of_not_mem_left backquote _ _ _ _ hdb hdb2
      (List.append_cancel_left hd)
    have h2 := append_cons_inj_of_not_mem_left backquote _ _ _ _ ht ht2
      (List.append_cancel_left h1.2)
    have h3 := append_cons_inj_of_not_mem_left backquote _ _ _ _ hnd hnd2
      (List.append_cancel_left h2.2)
    have h4 := List.append_cancel_right (List.append_cancel_left h3.2)
    exact ⟨String.ext h1.1, String.ext h2.1, String.ext h3.1, String.ext h4⟩

/-- C14, witness: the names recovered from the text of `drop_table("d", "t1")`; and, the
names being inserted as they are, two pairs with a backquote in a name that share one text,
so the condition on the names is needed. -/
theorem rewritten_query_injective_witness :
    (("d" : String) = "d" ∧ ("t1" : String) = "t1") ∧
    drop_table_query "a" "b`.`c" = drop_table_query "a`.`b" "c" :=
  ⟨rewritten_query_injective.2.2.1 "d" "t1" "d" "t1" (by unfold no_backquote; decide)
      (by unfold no_backquote; decide) (by unfold no_backquote; decide)
      (by unfold no_backquote; decide) rfl,
   by decide⟩

end NdbSchemaDist
